import Mathlib

/-!
Shallow embedding of the draggable-frame component
(src/src/DraggableFrame.tsx) of the react-draggable-frame repository.

Coordinates are modelled as exact rationals (ℚ).  Each React event
handler is embedded as a pure function from the component state to the
component state: inside one handler invocation every read of a useState
value sees the snapshot that was current when the handler was created
(React closure semantics), and the setState writes take effect for the
next event.  The browser environment (window.innerWidth/innerHeight,
frameRef.current with offsetWidth/offsetHeight) is an explicit
environment record; localStorage for this frame id is a field of the
state written by savePosition.
-/

namespace DraggableFrame

/-- Pixel position, the Position interface of the source. -/
structure Position where
  x : ℚ
  y : ℚ
deriving DecidableEq, Repr

/-- Numeric parts of the DraggableConfig interface.  The string and
rendering-only fields (storage key text, transition duration, z layer)
do not enter the state machine and are omitted. -/
structure DraggableConfig where
  dragThreshold : ℚ
  anchorMargin : ℚ
deriving DecidableEq, Repr

/-- DEFAULT_CONFIG of the source: threshold 5 px, margin 10 px. -/
def DEFAULT_CONFIG : DraggableConfig :=
  { dragThreshold := 5, anchorMargin := 10 }

/-- Anchor side, the useState value typed as left or right. -/
inductive Anchor where
  | left
  | right
deriving DecidableEq, Repr

/-- Measured box of the rendered frame element (frameRef.current):
offsetWidth and offsetHeight.  Its top-left corner
(getBoundingClientRect().left/top) equals the rendered position, which
the component sets from its position state. -/
structure FrameBox where
  offsetWidth : ℚ
  offsetHeight : ℚ
deriving DecidableEq, Repr

/-- A JavaScript value as far as the persistence path can observe one:
either a JSON number, or an object carrying numeric x and y fields and
a percentage flag (a missing or falsy percentage field is Bool.false). -/
inductive JSValue where
  | jnum (q : ℚ)
  | jobj (x y : ℚ) (percentage : Bool)
deriving DecidableEq, Repr

/-- State of the localStorage slot for this frame id: no item, an item
JSON.parse throws on, or an item that parses to a JSValue. -/
inductive StoredState where
  | absent
  | unparseable
  | stored (v : JSValue)
deriving DecidableEq, Repr

/-- Browser environment seen by one frame instance: viewport size,
the measured frame box when mounted (frameRef.current, none before
mount), the anchored prop and the merged config. -/
structure Env where
  innerWidth : ℚ
  innerHeight : ℚ
  frame : Option FrameBox
  anchored : Bool
  cfg : DraggableConfig
deriving DecidableEq, Repr

/-- Component state of one frame instance: the position and anchor
useState values, the isDragging flag, the dragStart and pointerOffset
refs, and the localStorage slot keyed by this frame id. -/
structure FrameState where
  position : Position
  isDragging : Bool
  dragStart : Option Position
  pointerOffset : Position
  anchor : Anchor
  storage : StoredState
deriving DecidableEq, Repr

/-- Embeds the useState initializer for position (lines 59-74): read the
saved item; on parse failure or absence return defaultPosition; if the
parsed value has a truthy percentage flag, scale by the current viewport;
otherwise return the parsed value unchanged. -/
def loadPosition (s : StoredState) (defaultPosition : Position)
    (w h : ℚ) : JSValue :=
  match s with
  | .absent => .jobj defaultPosition.x defaultPosition.y false
  | .unparseable => .jobj defaultPosition.x defaultPosition.y false
  | .stored (.jnum q) => .jnum q
  | .stored (.jobj x y true) => .jobj (x * w) (y * h) false
  | .stored (.jobj x y false) => .jobj x y false

/-- savePosition (lines 81-88): write the fractional record
x/innerWidth, y/innerHeight with percentage true to the storage slot. -/
def savePosition (env : Env) (s : FrameState) (x y : ℚ) : FrameState :=
  { s with storage :=
      .stored (.jobj (x / env.innerWidth) (y / env.innerHeight) true) }

/-- updatePosition (lines 90-111): no-op without a frame box; clamp the
candidate to [0, innerWidth - offsetWidth] × [0, innerHeight -
offsetHeight]; when anchored and the isDragging snapshot is false,
override x with the anchor resting coordinate decided from the clamped
frame center; set position and persist. -/
def updatePosition (env : Env) (s : FrameState) (x y : ℚ) : FrameState :=
  match env.frame with
  | none => s
  | some frame =>
    let maxX := env.innerWidth - frame.offsetWidth
    let maxY := env.innerHeight - frame.offsetHeight
    let newX := max 0 (min x maxX)
    let newY := max 0 (min y maxY)
    if env.anchored = true ∧ s.isDragging = false then
      let frameCenter := newX + frame.offsetWidth / 2
      let side : Anchor :=
        if frameCenter < env.innerWidth / 2 then .left else .right
      let newX2 :=
        if side = .left then env.cfg.anchorMargin
        else maxX - env.cfg.anchorMargin
      savePosition env
        { s with anchor := side, position := ⟨newX2, newY⟩ } newX2 newY
    else
      savePosition env
        { s with position := ⟨newX, newY⟩ } newX newY

/-- handleStart (lines 113-120): no-op when the frame box is not
measurable; otherwise record the drag start pointer and the pointer
offset within the frame (rect.left/top equal the rendered position),
and reset isDragging. -/
def handleStart (env : Env) (s : FrameState) (x y : ℚ) : FrameState :=
  match env.frame with
  | none => s
  | some _ =>
    { s with
      dragStart := some ⟨x, y⟩,
      pointerOffset := ⟨x - s.position.x, y - s.position.y⟩,
      isDragging := false }

/-- handleMove (lines 122-135): no-op without a drag session; if the
isDragging snapshot is false and a delta exceeds the threshold, set
isDragging; if the isDragging snapshot is true (stale read of the same
snapshot), move the frame to pointer minus pointerOffset. -/
def handleMove (env : Env) (s : FrameState) (x y : ℚ) : FrameState :=
  match s.dragStart with
  | none => s
  | some start =>
    let dx := x - start.x
    let dy := y - start.y
    let s1 :=
      if s.isDragging = false ∧
          (|dx| > env.cfg.dragThreshold ∨ |dy| > env.cfg.dragThreshold) then
        { s with isDragging := true }
      else s
    if s.isDragging = true then
      updatePosition env s1 (x - s.pointerOffset.x) (y - s.pointerOffset.y)
    else s1

/-- handleEnd (lines 137-154): when anchored and the isDragging snapshot
is true and the frame box is measurable, decide the side from the frame
center (position.x + offsetWidth/2) against the viewport mid-line, set
the anchor, move x to the margin (left) or maxX - margin (right) keeping
y, and persist; always clear the session and the dragging flag. -/
def handleEnd (env : Env) (s : FrameState) : FrameState :=
  let s1 :=
    if env.anchored = true ∧ s.isDragging = true then
      match env.frame with
      | none => s
      | some frame =>
        let frameCenter := s.position.x + frame.offsetWidth / 2
        let side : Anchor :=
          if frameCenter < env.innerWidth / 2 then .left else .right
        let maxX := env.innerWidth - frame.offsetWidth
        let finalX :=
          if side = .left then env.cfg.anchorMargin
          else maxX - env.cfg.anchorMargin
        savePosition env
          { s with anchor := side, position := ⟨finalX, s.position.y⟩ }
          finalX s.position.y
    else s
  { s1 with dragStart := none, isDragging := false }

/-- handleMouseDown (lines 251-255): only the primary button starts a
session. -/
def handleMouseDown (env : Env) (s : FrameState) (button : ℕ)
    (x y : ℚ) : FrameState :=
  if button = 0 then handleStart env s x y else s

/-- onResize (lines 213-225): when the frame box is measurable and the
frame is anchored (with no check of isDragging), re-decide the side from
the frame center against the new viewport mid-line (the anchor state is
neither read nor written), move x to the corresponding resting
coordinate keeping y, and persist.  The environment carries the new
viewport size. -/
def onResize (env : Env) (s : FrameState) : FrameState :=
  match env.frame with
  | none => s
  | some frame =>
    if env.anchored = true then
      let maxX := env.innerWidth - frame.offsetWidth
      let frameCenter := s.position.x + frame.offsetWidth / 2
      let side : Anchor :=
        if frameCenter < env.innerWidth / 2 then .left else .right
      let newX :=
        if side = .left then env.cfg.anchorMargin
        else maxX - env.cfg.anchorMargin
      savePosition env
        { s with position := ⟨newX, s.position.y⟩ } newX s.position.y
    else s

/-- Input events of a two-frame world: a pointer-down is delivered to
the frame it lands on (React onMouseDown on that frame element); moves
and the pointer-up reach every frame through the window listeners, and
handleEnd receives no coordinates. -/
inductive Ev where
  | downA (x y : ℚ)
  | downB (x y : ℚ)
  | move (x y : ℚ)
  | up
deriving DecidableEq, Repr

/-- Two co-mounted frame instances with their own states. -/
structure World2 where
  a : FrameState
  b : FrameState
deriving DecidableEq, Repr

/-- One event step of the two-frame world. -/
def step2 (envA envB : Env) (w : World2) : Ev → World2
  | .downA x y => { w with a := handleMouseDown envA w.a 0 x y }
  | .downB x y => { w with b := handleMouseDown envB w.b 0 x y }
  | .move x y =>
      { a := handleMove envA w.a x y, b := handleMove envB w.b x y }
  | .up => { a := handleEnd envA w.a, b := handleEnd envB w.b }

/-- Run a list of events through the two-frame world. -/
def run2 (envA envB : Env) (w : World2) (es : List Ev) : World2 :=
  es.foldl (step2 envA envB) w

/-- Input events of a single frame. -/
inductive Ev1 where
  | down (x y : ℚ)
  | move (x y : ℚ)
  | up
deriving DecidableEq, Repr

/-- One event step of a single frame. -/
def step1 (env : Env) (s : FrameState) : Ev1 → FrameState
  | .down x y => handleMouseDown env s 0 x y
  | .move x y => handleMove env s x y
  | .up => handleEnd env s

/-- Run a list of events through a single frame. -/
def run1 (env : Env) (s : FrameState) (es : List Ev1) : FrameState :=
  es.foldl (step1 env) s

/-- Modelled from the spec: decideSide of the Anchor Engine (section
4.3), which is not a separate function in the source.  Left if the
release pointer x is strictly below half the viewport width, else
Right. -/
def specDecideSide (pointerX viewportWidth : ℚ) : Anchor :=
  if pointerX < viewportWidth / 2 then .left else .right

/-- Modelled from the spec: restingX of the Anchor Engine (section
4.3): margin when Left, viewportWidth - frameWidth - margin when
Right. -/
def specRestingX (side : Anchor) (frameWidth viewportWidth margin : ℚ) : ℚ :=
  if side = .left then margin else viewportWidth - frameWidth - margin

/-- A fresh unclamped un-dragged initial state at a given default
position with empty storage. -/
def initState (p : Position) : FrameState :=
  { position := p, isDragging := false, dragStart := none,
    pointerOffset := ⟨0, 0⟩, anchor := .left, storage := .absent }

/-- Standard test environment: viewport 1000 × 800, frame 200 × 100,
default config, anchoring chosen per test. -/
def envStd (anchored : Bool) : Env :=
  { innerWidth := 1000, innerHeight := 800,
    frame := some ⟨200, 100⟩, anchored := anchored,
    cfg := DEFAULT_CONFIG }

/-- Clamping a candidate to [0, m] lands in [0, m] once the upper bound
is nonnegative. -/
theorem clamp_mem (c m : ℚ) (hm : 0 ≤ m) :
    0 ≤ max 0 (min c m) ∧ max 0 (min c m) ≤ m :=
  ⟨le_max_left 0 _, max_le hm (min_le_right c m)⟩

/-- updatePosition touches only position, anchor and storage: the
dragging flag and the drag session survive it unchanged. -/
theorem updatePosition_session (env : Env) (s : FrameState) (x y : ℚ) :
    (updatePosition env s x y).isDragging = s.isDragging ∧
    (updatePosition env s x y).dragStart = s.dragStart := by
  unfold updatePosition savePosition
  cases env.frame <;> simp
  split <;> simp

/-- On the dragging path, updatePosition takes the plain clamping
branch: the anchored override is skipped and the state is the snapshot
with the clamped position set and persisted. -/
theorem updatePosition_dragging (env : Env) (s : FrameState)
    (f : FrameBox) (x y : ℚ)
    (hf : env.frame = some f) (hd : s.isDragging = true) :
    updatePosition env s x y =
      savePosition env
        { s with position :=
            ⟨max 0 (min x (env.innerWidth - f.offsetWidth)),
             max 0 (min y (env.innerHeight - f.offsetHeight))⟩ }
        (max 0 (min x (env.innerWidth - f.offsetWidth)))
        (max 0 (min y (env.innerHeight - f.offsetHeight))) := by
  unfold updatePosition
  rw [hf]
  simp [hd]

/-- In a dragging state, handleMove with a session is exactly
updatePosition at pointer minus pointerOffset. -/
theorem handleMove_dragging (env : Env) (s : FrameState) (st : Position)
    (x y : ℚ) (hs : s.dragStart = some st) (hd : s.isDragging = true) :
    handleMove env s x y =
      updatePosition env s (x - s.pointerOffset.x) (y - s.pointerOffset.y) := by
  unfold handleMove
  rw [hs]
  simp [hd]

/-- C6 (confirmed): on the live clamping path (frame measurable, drag in
progress so the anchored override is skipped), updatePosition yields
exactly x = max(0, min(candidate.x, innerWidth - offsetWidth)) and
symmetrically for y; hence 0 ≤ x ≤ innerWidth - offsetWidth whenever the
frame fits horizontally, x = 0 whenever the frame is wider than the
viewport, and symmetrically for y. -/
theorem updatePosition_clamps (env : Env) (s : FrameState) (f : FrameBox)
    (cx cy : ℚ) (hf : env.frame = some f) (hd : s.isDragging = true) :
    (updatePosition env s cx cy).position.x
        = max 0 (min cx (env.innerWidth - f.offsetWidth)) ∧
    (updatePosition env s cx cy).position.y
        = max 0 (min cy (env.innerHeight - f.offsetHeight)) ∧
    (f.offsetWidth ≤ env.innerWidth →
      0 ≤ (updatePosition env s cx cy).position.x ∧
      (updatePosition env s cx cy).position.x
        ≤ env.innerWidth - f.offsetWidth) ∧
    (env.innerWidth < f.offsetWidth →
      (updatePosition env s cx cy).position.x = 0) ∧
    (f.offsetHeight ≤ env.innerHeight →
      0 ≤ (updatePosition env s cx cy).position.y ∧
      (updatePosition env s cx cy).position.y
        ≤ env.innerHeight - f.offsetHeight) ∧
    (env.innerHeight < f.offsetHeight →
      (updatePosition env s cx cy).position.y = 0) := by
  rw [updatePosition_dragging env s f cx cy hf hd]
  unfold savePosition
  refine ⟨rfl, rfl, ?_, ?_, ?_, ?_⟩
  · intro h
    exact clamp_mem cx (env.innerWidth - f.offsetWidth) (by linarith)
  · intro h
    exact max_eq_left ((min_le_right cx _).trans (by linarith))
  · intro h
    exact clamp_mem cy (env.innerHeight - f.offsetHeight) (by linarith)
  · intro h
    exact max_eq_left ((min_le_right cy _).trans (by linarith))

/-- Witness for updatePosition_clamps at a concrete input: candidate
(950, -30) on the standard 1000 × 800 viewport with a 200 × 100 frame
clamps to (800, 0). -/
theorem updatePosition_clamps_witness :
    (updatePosition (envStd false)
        { initState ⟨20, 20⟩ with isDragging := true } 950 (-30)).position.x
      = max 0 (min 950 ((envStd false).innerWidth - 200)) :=
  (updatePosition_clamps (envStd false)
    { initState ⟨20, 20⟩ with isDragging := true }
    ⟨200, 100⟩ 950 (-30) rfl rfl).1

/-- C7 (confirmed): within a session, a move in the Pending state whose
deltas from the start pointer both stay within the threshold leaves the
whole state unchanged (in particular it does not enter Dragging); a
Pending move with a delta exceeding the threshold sets the dragging
flag (the transition); and once dragging the flag stays set for every
further move, so the Pending-to-Dragging transition happens at most
once per session. -/
theorem handleMove_threshold (env : Env) (s : FrameState) (st : Position)
    (x y : ℚ) :
    (s.dragStart = some st → s.isDragging = false →
      |x - st.x| ≤ env.cfg.dragThreshold →
      |y - st.y| ≤ env.cfg.dragThreshold →
      handleMove env s x y = s) ∧
    (s.dragStart = some st → s.isDragging = false →
      (|x - st.x| > env.cfg.dragThreshold ∨
        |y - st.y| > env.cfg.dragThreshold) →
      handleMove env s x y = { s with isDragging := true }) ∧
    (s.isDragging = true → (handleMove env s x y).isDragging = true) := by
  refine ⟨?_, ?_, ?_⟩
  · intro hs hd hx hy
    unfold handleMove
    rw [hs]
    simp [hd, not_lt.mpr hx, not_lt.mpr hy]
  · intro hs hd hbig
    unfold handleMove
    rw [hs]
    simp only [hd, true_and, if_pos hbig]
    simp
  · intro hd
    cases hs : s.dragStart with
    | none => unfold handleMove; rw [hs]; exact hd
    | some st =>
      rw [handleMove_dragging env s st x y hs hd]
      rw [(updatePosition_session env s _ _).1]
      exact hd

/-- Witness for handleMove_threshold: with the default threshold 5, a
move from start (30, 30) to (33, 34) changes nothing, a move to
(130, 130) sets the dragging flag, and a move in a dragging state keeps
it. -/
theorem handleMove_threshold_witness :
    handleMove (envStd false)
        { initState ⟨20, 20⟩ with dragStart := some ⟨30, 30⟩ } 33 34
      = { initState ⟨20, 20⟩ with dragStart := some ⟨30, 30⟩ } ∧
    handleMove (envStd false)
        { initState ⟨20, 20⟩ with dragStart := some ⟨30, 30⟩ } 130 130
      = { initState ⟨20, 20⟩ with
          dragStart := some ⟨30, 30⟩,
          isDragging := true } ∧
    (handleMove (envStd false)
        { initState ⟨20, 20⟩ with
          dragStart := some ⟨30, 30⟩,
          isDragging := true } 130 130).isDragging = true := by
  refine ⟨?_, ?_, ?_⟩
  · exact (handleMove_threshold (envStd false)
      { initState ⟨20, 20⟩ with dragStart := some ⟨30, 30⟩ }
      ⟨30, 30⟩ 33 34).1 rfl rfl (by norm_num [envStd, DEFAULT_CONFIG])
      (by norm_num [envStd, DEFAULT_CONFIG])
  · exact (handleMove_threshold (envStd false)
      { initState ⟨20, 20⟩ with dragStart := some ⟨30, 30⟩ }
      ⟨30, 30⟩ 130 130).2.1 rfl rfl
      (Or.inl (by norm_num [envStd, DEFAULT_CONFIG]))
  · exact (handleMove_threshold (envStd false)
      { initState ⟨20, 20⟩ with
        dragStart := some ⟨30, 30⟩,
        isDragging := true } ⟨30, 30⟩ 130 130).2.2 rfl

/-- C8 (confirmed): persisting a position and loading it back on an
unchanged viewport returns exactly the same coordinates, over the exact
rational arithmetic of the fractional encoding. -/
theorem persist_load_roundtrip (env : Env) (s : FrameState)
    (d : Position) (x y : ℚ)
    (hw : env.innerWidth ≠ 0) (hh : env.innerHeight ≠ 0) :
    loadPosition (savePosition env s x y).storage d
        env.innerWidth env.innerHeight
      = .jobj x y false := by
  unfold savePosition loadPosition
  simp [div_mul_cancel₀, hw, hh]

/-- Witness for persist_load_roundtrip: persisting (120, 120) on the
1000 × 800 viewport and loading it back returns (120, 120). -/
theorem persist_load_roundtrip_witness :
    loadPosition
        (savePosition (envStd false) (initState ⟨20, 20⟩) 120 120).storage
        ⟨20, 20⟩ (envStd false).innerWidth (envStd false).innerHeight
      = .jobj 120 120 false :=
  persist_load_roundtrip (envStd false) (initState ⟨20, 20⟩) ⟨20, 20⟩
    120 120 (by norm_num [envStd]) (by norm_num [envStd])

/-- C9 counterexample: a persisted value that parses as JSON but fails
the record schema — the JSON number 5 — is not replaced by the supplied
default position (20, 20); loadPosition returns the parsed value
itself, so the claim that every malformed record (including schema
failures) yields the default is false. -/
theorem load_schema_failure_passthrough :
    loadPosition (.stored (.jnum 5)) ⟨20, 20⟩ 1000 800 = .jnum 5 ∧
    loadPosition (.stored (.jnum 5)) ⟨20, 20⟩ 1000 800
      ≠ .jobj 20 20 false := by
  refine ⟨rfl, ?_⟩
  unfold loadPosition
  simp

/-- C9 (amended): loadPosition is a total function (the try/catch
absorbs every parse failure, so nothing is thrown); an absent item and
an item JSON.parse rejects both yield the default position; a record
with a truthy percentage flag is scaled by the current viewport; but a
value that parses without a truthy percentage flag — including schema
failures such as a bare number — is returned unchanged, not replaced by
the default. -/
theorem load_total_behaviour (d : Position) (w h x y q : ℚ) :
    loadPosition .absent d w h = .jobj d.x d.y false ∧
    loadPosition .unparseable d w h = .jobj d.x d.y false ∧
    loadPosition (.stored (.jobj x y true)) d w h
      = .jobj (x * w) (y * h) false ∧
    loadPosition (.stored (.jobj x y false)) d w h = .jobj x y false ∧
    loadPosition (.stored (.jnum q)) d w h = .jnum q :=
  ⟨rfl, rfl, rfl, rfl, rfl⟩

/-- C1 counterexample: there is no registry in the code.  Frame A at
(20, 20) and frame B at (300, 20) are co-mounted; a pointer-down on A
and a move to (130, 130) make A the active dragging frame; the claim
says a pointer-down on B is then ignored and B never moves, but after
the down on B and two shared moves both frames are dragging at once and
B has moved to (320, 40). -/
theorem no_mutual_exclusion :
    (run2 (envStd false) (envStd false)
        ⟨initState ⟨20, 20⟩, initState ⟨300, 20⟩⟩
        [.downA 30 30, .move 130 130, .downB 310 30, .move 320 40,
         .move 330 50]).a.isDragging = true ∧
    (run2 (envStd false) (envStd false)
        ⟨initState ⟨20, 20⟩, initState ⟨300, 20⟩⟩
        [.downA 30 30, .move 130 130, .downB 310 30, .move 320 40,
         .move 330 50]).b.isDragging = true ∧
    (run2 (envStd false) (envStd false)
        ⟨initState ⟨20, 20⟩, initState ⟨300, 20⟩⟩
        [.downA 30 30, .move 130 130, .downB 310 30, .move 320 40,
         .move 330 50]).b.position = ⟨320, 40⟩ ∧
    (Position.mk 320 40 ≠ ⟨300, 20⟩) := by
  refine ⟨?_, ?_, ?_, ?_⟩ <;>
    norm_num [run2, List.foldl, step2, handleMouseDown, handleStart,
      handleMove, handleEnd, updatePosition, savePosition, initState,
      envStd, DEFAULT_CONFIG]

/-- C1 (amended): the exclusion the code actually provides is local,
not registry-based.  A frame with no drag session (dragStart = none)
treats every shared pointer-move as a complete no-op, and a frame whose
dragging flag is off treats a shared pointer-up as a pure session reset
that changes neither position nor storage; but a pointer-down on a
second frame is not ignored, so two frames can drag at once (see the
counterexample). -/
theorem passive_frame_ignores_shared_events (env : Env) (s : FrameState)
    (x y : ℚ) :
    (s.dragStart = none → handleMove env s x y = s) ∧
    (s.isDragging = false →
      handleEnd env s = { s with dragStart := none, isDragging := false }) := by
  constructor
  · intro hs
    unfold handleMove
    rw [hs]
  · intro hd
    unfold handleEnd
    simp [hd]

/-- Witness for passive_frame_ignores_shared_events at the idle
initial state. -/
theorem passive_frame_ignores_shared_events_witness :
    handleMove (envStd false) (initState ⟨300, 20⟩) 130 130
      = initState ⟨300, 20⟩ ∧
    handleEnd (envStd false) (initState ⟨300, 20⟩)
      = { initState ⟨300, 20⟩ with dragStart := none, isDragging := false } :=
  ⟨(passive_frame_ignores_shared_events (envStd false)
      (initState ⟨300, 20⟩) 130 130).1 rfl,
   (passive_frame_ignores_shared_events (envStd false)
      (initState ⟨300, 20⟩) 130 130).2 rfl⟩

/-- C2 counterexample: in a reachable Dragging state (pointer-down at
(30, 30), move to (130, 130)), the next pointer-move writes the
fractional record (121/1000, 121/800) to storage while the drag is
still in progress, so persist is not reserved for drag end. -/
theorem persist_during_drag :
    (run1 (envStd false) (initState ⟨20, 20⟩)
        [.down 30 30, .move 130 130]).isDragging = true ∧
    (handleMove (envStd false)
        (run1 (envStd false) (initState ⟨20, 20⟩)
          [.down 30 30, .move 130 130]) 131 131).isDragging = true ∧
    (handleMove (envStd false)
        (run1 (envStd false) (initState ⟨20, 20⟩)
          [.down 30 30, .move 130 130]) 131 131).storage
      = .stored (.jobj (121 / 1000) (121 / 800) true) ∧
    (run1 (envStd false) (initState ⟨20, 20⟩)
        [.down 30 30, .move 130 130]).storage = .absent ∧
    (StoredState.stored (.jobj (121 / 1000) (121 / 800) true)
      ≠ .absent) := by
  refine ⟨?_, ?_, ?_, ?_, by simp⟩ <;>
    norm_num [run1, List.foldl, step1, handleMouseDown, handleStart,
      handleMove, handleEnd, updatePosition, savePosition, initState,
      envStd, DEFAULT_CONFIG]

/-- C2 (amended): every pointer-move handled in the Dragging state with
a measurable frame persists: updatePosition unconditionally calls
savePosition, so the fractional record of the freshly clamped position
is written to storage on each such move, not only once the drag has
settled. -/
theorem dragging_move_persists (env : Env) (s : FrameState)
    (f : FrameBox) (st : Position) (x y : ℚ)
    (hf : env.frame = some f) (hd : s.isDragging = true)
    (hs : s.dragStart = some st) :
    (handleMove env s x y).storage =
      .stored (.jobj
        (max 0 (min (x - s.pointerOffset.x)
            (env.innerWidth - f.offsetWidth)) / env.innerWidth)
        (max 0 (min (y - s.pointerOffset.y)
            (env.innerHeight - f.offsetHeight)) / env.innerHeight)
        true) := by
  rw [handleMove_dragging env s st x y hs hd,
    updatePosition_dragging env s f _ _ hf hd]
  unfold savePosition
  rfl

/-- Witness for dragging_move_persists at a concrete dragging state:
the move to (131, 131) writes the record (121/1000, 121/800). -/
theorem dragging_move_persists_witness :
    (handleMove (envStd false)
        { initState ⟨20, 20⟩ with
          dragStart := some ⟨30, 30⟩,
          isDragging := true,
          pointerOffset := ⟨10, 10⟩ } 131 131).storage =
      .stored (.jobj
        (max 0 (min (131 - 10) ((envStd false).innerWidth - 200))
          / (envStd false).innerWidth)
        (max 0 (min (131 - 10) ((envStd false).innerHeight - 100))
          / (envStd false).innerHeight)
        true) :=
  dragging_move_persists (envStd false)
    { initState ⟨20, 20⟩ with
      dragStart := some ⟨30, 30⟩,
      isDragging := true,
      pointerOffset := ⟨10, 10⟩ }
    ⟨200, 100⟩ ⟨30, 30⟩ 131 131 rfl rfl rfl

/-- C3 counterexample: handleEnd receives no release coordinates and
decides from the frame center, not the release pointer.  Reachable
trace on the anchored 1000-wide viewport: frame at (311, 20), down at
(501, 30) (offset 190), a first move to (511, 30) that starts the drag,
a second move back to (501, 30) that applies position (311, 20), then
release with the pointer at x = 501.  The claim (left iff pointer x <
500, tie to right) demands side Right with resting x = 790, but the
code tests the frame center 411 < 500 and rests at x = 10. -/
theorem release_pointer_not_used :
    specDecideSide 501 1000 = .right ∧
    specRestingX .right 200 1000 10 = 790 ∧
    (run1 (envStd true) (initState ⟨311, 20⟩)
        [.down 501 30, .move 511 30, .move 501 30, .up]).position.x = 10 ∧
    (run1 (envStd true) (initState ⟨311, 20⟩)
        [.down 501 30, .move 511 30, .move 501 30, .up]).anchor
      = .left ∧
    ((10 : ℚ) ≠ 790) := by
  refine ⟨by norm_num [specDecideSide], ?_, ?_, ?_, by norm_num⟩
  · unfold specRestingX
    rw [if_neg (show ¬(Anchor.right = Anchor.left) by simp)]
    norm_num
  · norm_num [run1, List.foldl, step1, handleMouseDown, handleStart,
      handleMove, handleEnd, updatePosition, savePosition, initState,
      envStd, DEFAULT_CONFIG]
  · norm_num [run1, List.foldl, step1, handleMouseDown, handleStart,
      handleMove, handleEnd, updatePosition, savePosition, initState,
      envStd, DEFAULT_CONFIG]

/-- Anchored settle, left case: when the frame center sits strictly
left of the viewport mid-line, handleEnd rests the frame at the margin,
records the left anchor, keeps y, persists and clears the session. -/
theorem handleEnd_left (env : Env) (s : FrameState) (f : FrameBox)
    (hf : env.frame = some f) (ha : env.anchored = true)
    (hd : s.isDragging = true)
    (hlt : s.position.x + f.offsetWidth / 2 < env.innerWidth / 2) :
    handleEnd env s =
      { s with
        position := ⟨env.cfg.anchorMargin, s.position.y⟩,
        anchor := .left,
        dragStart := none,
        isDragging := false,
        storage := .stored
          (.jobj (env.cfg.anchorMargin / env.innerWidth)
            (s.position.y / env.innerHeight) true) } := by
  unfold handleEnd
  rw [hf]
  simp only [ha, hd, and_self, if_true]
  rw [if_pos hlt]
  simp [savePosition]

/-- Anchored settle, right case (including the exact mid-line tie):
handleEnd rests the frame at innerWidth - offsetWidth - margin, records
the right anchor, keeps y, persists and clears the session. -/
theorem handleEnd_right (env : Env) (s : FrameState) (f : FrameBox)
    (hf : env.frame = some f) (ha : env.anchored = true)
    (hd : s.isDragging = true)
    (hge : env.innerWidth / 2 ≤ s.position.x + f.offsetWidth / 2) :
    handleEnd env s =
      { s with
        position :=
          ⟨env.innerWidth - f.offsetWidth - env.cfg.anchorMargin,
            s.position.y⟩,
        anchor := .right,
        dragStart := none,
        isDragging := false,
        storage := .stored
          (.jobj
            ((env.innerWidth - f.offsetWidth - env.cfg.anchorMargin)
              / env.innerWidth)
            (s.position.y / env.innerHeight) true) } := by
  unfold handleEnd
  rw [hf]
  simp only [ha, hd, and_self, if_true]
  rw [if_neg (not_lt.mpr hge)]
  simp [savePosition]

/-- C3 (amended): on drag-end of an anchored dragging frame, the side
is decided from the frame center (position.x + offsetWidth/2, using the
position state, since handleEnd receives no pointer coordinates): Left
iff the center is strictly left of the viewport mid-line, the tie
resolving to Right; the resting x is the margin for Left and
innerWidth - offsetWidth - margin for Right, the drag-computed y is
kept, and the final position is persisted. -/
theorem anchored_end_uses_frame_center (env : Env) (s : FrameState)
    (f : FrameBox) (hf : env.frame = some f) (ha : env.anchored = true)
    (hd : s.isDragging = true) :
    (s.position.x + f.offsetWidth / 2 < env.innerWidth / 2 →
      handleEnd env s =
        { s with
          position := ⟨env.cfg.anchorMargin, s.position.y⟩,
          anchor := .left,
          dragStart := none,
          isDragging := false,
          storage := .stored
            (.jobj (env.cfg.anchorMargin / env.innerWidth)
              (s.position.y / env.innerHeight) true) }) ∧
    (env.innerWidth / 2 ≤ s.position.x + f.offsetWidth / 2 →
      handleEnd env s =
        { s with
          position :=
            ⟨env.innerWidth - f.offsetWidth - env.cfg.anchorMargin,
              s.position.y⟩,
          anchor := .right,
          dragStart := none,
          isDragging := false,
          storage := .stored
            (.jobj
              ((env.innerWidth - f.offsetWidth - env.cfg.anchorMargin)
                / env.innerWidth)
              (s.position.y / env.innerHeight) true) }) :=
  ⟨handleEnd_left env s f hf ha hd, handleEnd_right env s f hf ha hd⟩

/-- Witness for anchored_end_uses_frame_center: the dragging anchored
frame at (311, 20) on the 1000-wide viewport has center 411 < 500 and
settles at x = 10 with the record (10/1000, 20/800) persisted. -/
theorem anchored_end_uses_frame_center_witness :
    handleEnd (envStd true)
        { initState ⟨311, 20⟩ with
          dragStart := some ⟨501, 30⟩,
          pointerOffset := ⟨190, 10⟩,
          isDragging := true } =
      { initState ⟨311, 20⟩ with
        position := ⟨10, 20⟩,
        anchor := .left,
        dragStart := none,
        pointerOffset := ⟨190, 10⟩,
        isDragging := false,
        storage := .stored (.jobj (10 / 1000) (20 / 800) true) } := by
  have h := (anchored_end_uses_frame_center (envStd true)
    { initState ⟨311, 20⟩ with
      dragStart := some ⟨501, 30⟩,
      pointerOffset := ⟨190, 10⟩,
      isDragging := true }
    ⟨200, 100⟩ rfl rfl rfl).1 (by norm_num [envStd, initState])
  rw [h]
  norm_num [envStd, initState, DEFAULT_CONFIG]

/-- C4 counterexample: in the basic-drag scenario (frame at (20, 20),
viewport 1000 × 800, frame 200 × 100, down at (30, 30), one move to
(130, 130)), the threshold-crossing move only sets the dragging flag —
the position update in the same invocation still reads the stale
snapshot of the flag — so the position stays (20, 20), not (120, 120);
after the pointer-up nothing was ever persisted. -/
theorem single_move_does_not_update :
    (run1 (envStd false) (initState ⟨20, 20⟩)
        [.down 30 30, .move 130 130]).isDragging = true ∧
    (run1 (envStd false) (initState ⟨20, 20⟩)
        [.down 30 30, .move 130 130]).position = ⟨20, 20⟩ ∧
    (run1 (envStd false) (initState ⟨20, 20⟩)
        [.down 30 30, .move 130 130, .up]).position = ⟨20, 20⟩ ∧
    (run1 (envStd false) (initState ⟨20, 20⟩)
        [.down 30 30, .move 130 130, .up]).storage = .absent ∧
    (Position.mk 20 20 ≠ ⟨120, 120⟩) := by
  refine ⟨?_, ?_, ?_, ?_, by simp⟩ <;>
    norm_num [run1, List.foldl, step1, handleMouseDown, handleStart,
      handleMove, handleEnd, updatePosition, savePosition, initState,
      envStd, DEFAULT_CONFIG]

/-- C4 (amended): the basic-drag scenario needs the above-threshold
move delivered twice — the first sets the dragging flag, the second
applies the position — after which the position is (120, 120) and the
record (120/1000, 120/800) is persisted (already during the move, not
at the pointer-up); the non-anchored pointer-up then changes neither. -/
theorem two_moves_update_and_persist :
    (run1 (envStd false) (initState ⟨20, 20⟩)
        [.down 30 30, .move 130 130, .move 130 130]).position
      = ⟨120, 120⟩ ∧
    (run1 (envStd false) (initState ⟨20, 20⟩)
        [.down 30 30, .move 130 130, .move 130 130]).storage
      = .stored (.jobj (120 / 1000) (120 / 800) true) ∧
    (run1 (envStd false) (initState ⟨20, 20⟩)
        [.down 30 30, .move 130 130, .move 130 130, .up]).position
      = ⟨120, 120⟩ ∧
    (run1 (envStd false) (initState ⟨20, 20⟩)
        [.down 30 30, .move 130 130, .move 130 130, .up]).storage
      = .stored (.jobj (120 / 1000) (120 / 800) true) := by
  refine ⟨?_, ?_, ?_, ?_⟩ <;>
    norm_num [run1, List.foldl, step1, handleMouseDown, handleStart,
      handleMove, handleEnd, updatePosition, savePosition, initState,
      envStd, DEFAULT_CONFIG]

/-- C5 counterexample: onResize re-decides the side from the frame
center instead of using the held anchor side.  A frame anchored Right
at x = 790 (center 890) is resized to an 1800-wide viewport: the claim
(keep side Right) demands x = 1800 - 200 - 10 = 1590, but the code
re-tests 890 < 900, decides left, and moves the frame to x = 10,
leaving the stored anchor still Right. -/
theorem resize_ignores_held_side :
    (onResize
        { innerWidth := 1800, innerHeight := 800, frame := some ⟨200, 100⟩,
          anchored := true, cfg := DEFAULT_CONFIG }
        { initState ⟨790, 20⟩ with anchor := .right }).position.x = 10 ∧
    (onResize
        { innerWidth := 1800, innerHeight := 800, frame := some ⟨200, 100⟩,
          anchored := true, cfg := DEFAULT_CONFIG }
        { initState ⟨790, 20⟩ with anchor := .right }).anchor = .right ∧
    ({ initState ⟨790, 20⟩ with anchor := .right } : FrameState).isDragging
      = false ∧
    ((10 : ℚ) ≠ 1800 - 200 - 10) := by
  refine ⟨?_, ?_, rfl, by norm_num⟩ <;>
    norm_num [onResize, savePosition, initState, DEFAULT_CONFIG]

/-- C5 (amended): on viewport resize of an anchored measurable frame —
dragging or not, the flag is never consulted — the side is re-decided
from the frame center against the new viewport mid-line (the held
anchor state is neither read nor written), x becomes the margin (left)
or innerWidth - offsetWidth - margin (right), y is kept and the result
is persisted; in the scenario of the claim (Right at x = 790 resized
from 1000 to 1200 wide) the re-decision also yields right, so x = 990
as the spec expects. -/
theorem resize_redecides_side (env : Env) (s : FrameState) (f : FrameBox)
    (hf : env.frame = some f) (ha : env.anchored = true) :
    (s.position.x + f.offsetWidth / 2 < env.innerWidth / 2 →
      onResize env s =
        { s with
          position := ⟨env.cfg.anchorMargin, s.position.y⟩,
          storage := .stored
            (.jobj (env.cfg.anchorMargin / env.innerWidth)
              (s.position.y / env.innerHeight) true) }) ∧
    (env.innerWidth / 2 ≤ s.position.x + f.offsetWidth / 2 →
      onResize env s =
        { s with
          position :=
            ⟨env.innerWidth - f.offsetWidth - env.cfg.anchorMargin,
              s.position.y⟩,
          storage := .stored
            (.jobj
              ((env.innerWidth - f.offsetWidth - env.cfg.anchorMargin)
                / env.innerWidth)
              (s.position.y / env.innerHeight) true) }) ∧
    (onResize env s).anchor = s.anchor ∧
    (onResize env s).isDragging = s.isDragging ∧
    (onResize
        { innerWidth := 1200, innerHeight := 800, frame := some ⟨200, 100⟩,
          anchored := true, cfg := DEFAULT_CONFIG }
        { initState ⟨790, 20⟩ with anchor := .right }).position.x = 990 := by
  refine ⟨?_, ?_, ?_, ?_, ?_⟩
  · intro hlt
    unfold onResize
    rw [hf]
    simp only [ha, if_true]
    rw [if_pos hlt]
    simp [savePosition]
  · intro hge
    unfold onResize
    rw [hf]
    simp only [ha, if_true]
    rw [if_neg (not_lt.mpr hge)]
    simp [savePosition]
  · unfold onResize savePosition
    rw [hf]
    simp [ha]
  · unfold onResize savePosition
    rw [hf]
    simp [ha]
  · norm_num [onResize, savePosition, initState, DEFAULT_CONFIG]
    simp

/-- Witness for resize_redecides_side: the Right-anchored frame at
x = 790 resized to the 1800-wide viewport has center 890 < 900, so the
re-decision yields the left resting x = 10 with the record persisted. -/
theorem resize_redecides_side_witness :
    onResize
        { innerWidth := 1800, innerHeight := 800, frame := some ⟨200, 100⟩,
          anchored := true, cfg := DEFAULT_CONFIG }
        { initState ⟨790, 20⟩ with anchor := .right } =
      { initState ⟨790, 20⟩ with
        anchor := .right,
        position := ⟨10, 20⟩,
        storage := .stored (.jobj (10 / 1800) (20 / 800) true) } := by
  have h := (resize_redecides_side
    { innerWidth := 1800, innerHeight := 800, frame := some ⟨200, 100⟩,
      anchored := true, cfg := DEFAULT_CONFIG }
    { initState ⟨790, 20⟩ with anchor := .right }
    ⟨200, 100⟩ rfl rfl).1 (by norm_num [initState])
  rw [h]
  norm_num [initState, DEFAULT_CONFIG]

/-- C10 counterexample: the anchored settle does not clamp the resting
x before persisting.  On a 100-wide viewport with a 100-wide frame
(default margin 10), the reachable trace down (10, 30), two moves to
(20, 30), release, ends with center 50 on the mid-line, side right and
resting x = 0 - 10 = -10 — so the record written to storage is
(-1/10, 1/40), whose x-fraction lies outside [0, 1]. -/
theorem persisted_fraction_out_of_range :
    (run1
        { innerWidth := 100, innerHeight := 800, frame := some ⟨100, 100⟩,
          anchored := true, cfg := DEFAULT_CONFIG }
        (initState ⟨0, 20⟩)
        [.down 10 30, .move 20 30, .move 20 30, .up]).storage
      = .stored (.jobj (-1 / 10) (1 / 40) true) ∧
    ¬ ((0 : ℚ) ≤ -1 / 10) := by
  constructor
  · norm_num [run1, List.foldl, step1, handleMouseDown, handleStart,
      handleMove, handleEnd, updatePosition, savePosition, initState,
      DEFAULT_CONFIG]
    rw [if_neg (show ¬(Anchor.right = Anchor.left) by simp)]
    norm_num
  · norm_num

/-- C10 (amended): a record written by a Dragging pointer-move has both
fractions in [0, 1] whenever the viewport is positive and the frame
fits inside it; a record written by the anchored settle keeps its
x-fraction in [0, 1] only under the extra conditions 0 ≤ margin and
offsetWidth + margin ≤ innerWidth (otherwise the unclamped resting x
escapes, as in the counterexample), and its y-fraction in [0, 1] only
when the held y already lies in [0, innerHeight]. -/
theorem persisted_fraction_bounds (env : Env) (s : FrameState)
    (f : FrameBox) (st : Position) (x y px py : ℚ)
    (hf : env.frame = some f)
    (hw : 0 < env.innerWidth) (hh : 0 < env.innerHeight)
    (hfw0 : 0 ≤ f.offsetWidth) (hfh0 : 0 ≤ f.offsetHeight)
    (hfw : f.offsetWidth ≤ env.innerWidth)
    (hfh : f.offsetHeight ≤ env.innerHeight) :
    (s.isDragging = true → s.dragStart = some st →
      (handleMove env s x y).storage = .stored (.jobj px py true) →
      0 ≤ px ∧ px ≤ 1 ∧ 0 ≤ py ∧ py ≤ 1) ∧
    (env.anchored = true → s.isDragging = true →
      0 ≤ env.cfg.anchorMargin →
      f.offsetWidth + env.cfg.anchorMargin ≤ env.innerWidth →
      0 ≤ s.position.y → s.position.y ≤ env.innerHeight →
      (handleEnd env s).storage = .stored (.jobj px py true) →
      0 ≤ px ∧ px ≤ 1 ∧ 0 ≤ py ∧ py ≤ 1) := by
  constructor
  · intro hd hs heq
    rw [handleMove_dragging env s st x y hs hd,
      updatePosition_dragging env s f _ _ hf hd] at heq
    unfold savePosition at heq
    simp only [StoredState.stored.injEq, JSValue.jobj.injEq] at heq
    obtain ⟨hpx, hpy, -⟩ := heq
    have hx := clamp_mem (x - s.pointerOffset.x)
      (env.innerWidth - f.offsetWidth) (by linarith)
    have hy := clamp_mem (y - s.pointerOffset.y)
      (env.innerHeight - f.offsetHeight) (by linarith)
    refine ⟨?_, ?_, ?_, ?_⟩
    · rw [← hpx]; exact div_nonneg hx.1 hw.le
    · rw [← hpx]
      exact (div_le_one hw).mpr (hx.2.trans (by linarith))
    · rw [← hpy]; exact div_nonneg hy.1 hh.le
    · rw [← hpy]
      exact (div_le_one hh).mpr (hy.2.trans (by linarith))
  · intro ha hd hm hmw hy0 hy1 heq
    rcases lt_or_le (s.position.x + f.offsetWidth / 2)
      (env.innerWidth / 2) with hlt | hge
    · rw [handleEnd_left env s f hf ha hd hlt] at heq
      simp only [StoredState.stored.injEq, JSValue.jobj.injEq] at heq
      obtain ⟨hpx, hpy, -⟩ := heq
      refine ⟨?_, ?_, ?_, ?_⟩
      · rw [← hpx]; exact div_nonneg hm hw.le
      · rw [← hpx]
        exact (div_le_one hw).mpr (by linarith)
      · rw [← hpy]; exact div_nonneg hy0 hh.le
      · rw [← hpy]; exact (div_le_one hh).mpr hy1
    · rw [handleEnd_right env s f hf ha hd hge] at heq
      simp only [StoredState.stored.injEq, JSValue.jobj.injEq] at heq
      obtain ⟨hpx, hpy, -⟩ := heq
      refine ⟨?_, ?_, ?_, ?_⟩
      · rw [← hpx]
        exact div_nonneg (by linarith) hw.le
      · rw [← hpx]
        exact (div_le_one hw).mpr (by linarith)
      · rw [← hpy]; exact div_nonneg hy0 hh.le
      · rw [← hpy]; exact (div_le_one hh).mpr hy1

/-- Witness for persisted_fraction_bounds: the Dragging move to
(131, 131) in the standard environment writes the record
(121/1000, 121/800), whose fractions lie in [0, 1]. -/
theorem persisted_fraction_bounds_witness :
    (0 : ℚ) ≤ 121 / 1000 ∧ (121 : ℚ) / 1000 ≤ 1 ∧
    (0 : ℚ) ≤ 121 / 800 ∧ (121 : ℚ) / 800 ≤ 1 :=
  (persisted_fraction_bounds (envStd false)
    { initState ⟨20, 20⟩ with
      dragStart := some ⟨30, 30⟩,
      isDragging := true,
      pointerOffset := ⟨10, 10⟩ }
    ⟨200, 100⟩ ⟨30, 30⟩ 131 131 (121 / 1000) (121 / 800)
    rfl (by norm_num [envStd]) (by norm_num [envStd])
    (by norm_num) (by norm_num)
    (by norm_num [envStd]) (by norm_num [envStd])).1 rfl rfl
    (by norm_num [handleMove, updatePosition, savePosition, initState,
      envStd, DEFAULT_CONFIG])

end DraggableFrame
